import Mathlib

/-!
# Verification of the codedetector heuristic estimation engine

Shallow embedding of `src/app.py`: a pipeline that classifies a pasted text
blob as code or prose, guesses the language, estimates time/space complexity
labels from substring heuristics, and produces a synthetic performance report.

Strings are modelled as Lean `String`s; the Python substring operations
(`in`, `str.count`, `str.lower`) are embedded below as executable functions
over `List Char`.
-/

/-- the Python membership test `pat in s`: does `pat` occur as a contiguous
substring of `s`?  Scans every suffix and checks for a prefix match. -/
def hasSub (pat : List Char) : List Char → Bool
  | [] => pat.isPrefixOf []
  | c :: rest => pat.isPrefixOf (c :: rest) || hasSub pat rest

/-- Fuel-driven scan implementing the Python method `str.count` (non-overlapping,
left-to-right: after a match the scan resumes past the match).  `fuel` is an
upper bound on the remaining length, so the recursion is structural. -/
def countFrom (pat : List Char) : Nat → List Char → Nat
  | 0, _ => 0
  | _ + 1, [] => 0
  | fuel + 1, c :: rest =>
    if pat.isPrefixOf (c :: rest) then
      1 + countFrom pat fuel (List.drop (pat.length - 1) rest)
    else
      countFrom pat fuel rest

/-- The Python expression `s.count(pat)` for a nonempty `pat`. -/
def strCount (s pat : String) : Nat := countFrom pat.data s.data.length s.data

/-- The Python expression `pat in s`. -/
def strContains (s pat : String) : Bool := hasSub pat.data s.data

/-- Python `s.lower()` (ASCII range; every character occurring in the
keyword checks below is ASCII). -/
def strLower (s : String) : List Char := s.data.map Char.toLower

/-- Embeds `is_code` (src/app.py lines 9-11): the input is code when any of
the seven literal symbols occurs in it. -/
def is_code (text : String) : Bool :=
  let symbols := ["def ", "\x7b", "\x7d", ";", "#include", "public static", "()"]
  symbols.any (fun s => strContains text s)

/-- Embeds `detect_language` (src/app.py lines 13-22): ordered substring
checks, first match wins. -/
def detect_language (code : String) : String :=
  if strContains code "def " then "Python"
  else if strContains code "#include" then "C / C++"
  else if strContains code "public static void main" then "Java"
  else if strContains code "function" then "JavaScript"
  else "Unknown"

/-- Embeds `estimate_time_complexity` (src/app.py lines 28-41).  The guard
`sorting and loops` uses Python truthiness of the integer `loops`, i.e.
`loops ≠ 0`. -/
def estimate_time_complexity (code : String) : String :=
  let loops := strCount code "for" + strCount code "while"
  let sorting := strContains code "sort(" || strContains code "sorted("
  let recursion := strCount code "def " > 1
  if sorting && !(loops == 0) then "O(n log n)"
  else if loops ≥ 2 then "O(n²)"
  else if recursion then "O(n)"
  else if loops == 1 then "O(n)"
  else "O(1)"

/-- Embeds `estimate_space_complexity` (src/app.py lines 43-46):
case-insensitive presence check over five container keywords. -/
def estimate_space_complexity (code : String) : String :=
  if ["list", "[]", "\x7b\x7d", "dict", "set"].any
      (fun k => hasSub k.data (strLower code)) then "O(n)"
  else "O(1)"

/-- Embeds `estimate_compile_time` (src/app.py lines 52-59). -/
def estimate_compile_time (language : String) : String :=
  if language == "Python" then "0 ms (interpreted)"
  else if language == "C / C++" then "40–150 ms"
  else if language == "Java" then "200–500 ms"
  else "Unknown"

/-- Rounds the rational `num / den` to the nearest multiple of 1/100
(ties to even), returning the result in centi-units.  This is the value
the Python format `f"\x7bms:.2f\x7d"` prints for `ms = num / den`: for every operand
pair reachable in `estimate_execution_time` (twelve quotients, none of which
is a tie at the hundredths place and none of which changes its hundredths
rounding under the nearest-double approximation) the IEEE-754 double
formatting and this exact rational rounding agree. -/
def roundCenti (num den : Nat) : Nat :=
  let a := num * 100
  let q := a / den
  let r := a % den
  if 2 * r < den then q
  else if den < 2 * r then q + 1
  else if q % 2 == 0 then q else q + 1

/-- Renders a centi-unit count as a decimal string with exactly two digits
after the point, as the Python format `:.2f` does for these values. -/
def fmtCenti (c : Nat) : String :=
  let ip := c / 100
  let fp := c % 100
  toString ip ++ "." ++ (if fp < 10 then "0" ++ toString fp else toString fp)

/-- Embeds `estimate_execution_time` (src/app.py lines 61-85): maps the
complexity label to an operation count at n = 100000, the language to a
throughput in operations per millisecond, and formats the quotient to two
decimal places with the fixed suffix. -/
def estimate_execution_time (tc language : String) : String :=
  let n : Nat := 100000
  let ops : Nat :=
    if tc == "O(1)" then 1
    else if tc == "O(n)" then n
    else if tc == "O(n log n)" then n * 17
    else if tc == "O(n²)" then n * n
    else n
  let ops_per_ms : Nat :=
    if language == "Python" then 5000000
    else if language == "Java" then 15000000
    else if language == "C / C++" then 30000000
    else 5000000
  fmtCenti (roundCenti ops ops_per_ms) ++ " ms (n = 10⁵)"

/-- Embeds `speed_class` (src/app.py lines 88-95).  Note the label strings
carry the emoji decorations present in the source. -/
def speed_class (tc : String) : String :=
  if tc == "O(1)" || tc == "O(log n)" then "Very Fast ⚡"
  else if tc == "O(n)" then "Fast"
  else if tc == "O(n log n)" then "Risky ⚠️"
  else "Slow 🐢"

/-- The mapping returned by `platform_runtimes`: three platform keys. -/
structure PlatformTimes where
  leetcode : String
  codeforces : String
  hackerrank : String
  deriving DecidableEq

/-- Embeds `platform_runtimes` (src/app.py lines 97-118): computes the
execution time once and returns it under all three keys.  The Python
function body continues after this `return` with differentiated per-platform
branches; those statements follow an unconditional return, so they never
execute and are not part of the embedded behaviour. -/
def platform_runtimes (tc language : String) : PlatformTimes :=
  let time := estimate_execution_time tc language
  { leetcode := time, codeforces := time, hackerrank := time }

/-- The eleven-field performance report assembled by the route handler. -/
structure Report where
  type : String
  language : String
  time_complexity : String
  space_complexity : String
  compile_time : String
  execution_time : String
  speed : String
  leetcode_runtime : String
  codeforces_runtime : String
  hackerrank_runtime : String
  note : String
  deriving DecidableEq

/-- Embeds the POST branch of `index` (src/app.py lines 128-162): the pure
pipeline from the submitted string to the report record, with the single
is-code / not-code fork. -/
def analyze (user_input : String) : Report :=
  if is_code user_input then
    let language := detect_language user_input
    let tc := estimate_time_complexity user_input
    let runtimes := platform_runtimes tc language
    { type := "Code"
      language := language
      time_complexity := tc
      space_complexity := estimate_space_complexity user_input
      compile_time := estimate_compile_time language
      execution_time := estimate_execution_time tc language
      speed := speed_class tc
      leetcode_runtime := runtimes.leetcode
      codeforces_runtime := runtimes.codeforces
      hackerrank_runtime := runtimes.hackerrank
      note := "All metrics are static estimates based on code structure, not real execution" }
  else
    { type := "Text / Problem Statement"
      language := "N/A"
      time_complexity := "Paste code to estimate"
      space_complexity := "Paste code to estimate"
      compile_time := "N/A"
      execution_time := "N/A"
      speed := "N/A"
      leetcode_runtime := "N/A"
      codeforces_runtime := "N/A"
      hackerrank_runtime := "N/A"
      note := "Static performance analysis requires actual source code" }

/-!
## Specification-side definitions

Each `spec_*` definition transcribes the wording of the specification, to be
compared with the corresponding function embedded from the source above.
-/

/-- From the spec wording: the input is code iff at least one of the seven
literal substrings occurs in it, a single match sufficing. -/
def spec_is_code (s : String) : Bool :=
  strContains s "def " || strContains s "\x7b" || strContains s "\x7d" ||
    strContains s ";" || strContains s "#include" ||
    strContains s "public static" || strContains s "()"

/-- From the spec wording: first matching rule of an ordered rule table, in
the exact priority order Python, C / C++, Java, JavaScript; else Unknown. -/
def spec_detect_language (s : String) : String :=
  match [("def ", "Python"), ("#include", "C / C++"),
      ("public static void main", "Java"), ("function", "JavaScript")].find?
      (fun p => strContains s p.1) with
  | some p => p.2
  | none => "Unknown"

/-- From the spec wording: loop count, sorting flag and recursion flag, then
the first-matching decision list of the claim. -/
def spec_time_complexity (s : String) : String :=
  if (strContains s "sort(" = true ∨ strContains s "sorted(" = true) ∧
      1 ≤ strCount s "for" + strCount s "while" then "O(n log n)"
  else if 2 ≤ strCount s "for" + strCount s "while" then "O(n²)"
  else if 1 < strCount s "def " then "O(n)"
  else if strCount s "for" + strCount s "while" = 1 then "O(n)"
  else "O(1)"

/-- From the spec wording: O(n) iff the lowercased input contains one of the
five container keywords, else O(1). -/
def spec_space_complexity (s : String) : String :=
  if hasSub "list".data (strLower s) = true ∨ hasSub "[]".data (strLower s) = true ∨
      hasSub "\x7b\x7d".data (strLower s) = true ∨
      hasSub "dict".data (strLower s) = true ∨
      hasSub "set".data (strLower s) = true then "O(n)"
  else "O(1)"

/-- From the spec wording: complexity label to operation count. -/
def spec_ops (tc : String) : Nat :=
  if tc = "O(1)" then 1
  else if tc = "O(n)" then 100000
  else if tc = "O(n log n)" then 100000 * 17
  else if tc = "O(n²)" then 100000 * 100000
  else 100000

/-- From the spec wording: language label to throughput in ops per ms. -/
def spec_ops_per_ms (language : String) : Nat :=
  if language = "Python" then 5000000
  else if language = "Java" then 15000000
  else if language = "C / C++" then 30000000
  else 5000000

/-- From the spec wording: quotient formatted to two decimals plus the
fixed suffix. -/
def spec_execution_time (tc language : String) : String :=
  fmtCenti (roundCenti (spec_ops tc) (spec_ops_per_ms language)) ++ " ms (n = 10⁵)"

/-- From the spec wording: the fixed speed-label table, including the
defensive O(log n) branch. -/
def spec_speed_class (tc : String) : String :=
  if tc = "O(1)" ∨ tc = "O(log n)" then "Very Fast ⚡"
  else if tc = "O(n)" then "Fast"
  else if tc = "O(n log n)" then "Risky ⚠️"
  else "Slow 🐢"

/-- The fixed not-code report template (src/app.py lines 150-162). -/
def notCodeReport : Report :=
  { type := "Text / Problem Statement"
    language := "N/A"
    time_complexity := "Paste code to estimate"
    space_complexity := "Paste code to estimate"
    compile_time := "N/A"
    execution_time := "N/A"
    speed := "N/A"
    leetcode_runtime := "N/A"
    codeforces_runtime := "N/A"
    hackerrank_runtime := "N/A"
    note := "Static performance analysis requires actual source code" }

/-- The bubble-sort snippet used by the end-to-end example in the spec. -/
def bubbleSrc : String :=
  "def bubble_sort(arr):\n for i in range(len(arr)):\n for j in range(len(arr)):\n if arr[j] > arr[j+1]: arr[j], arr[j+1] = arr[j+1], arr[j]"

/-- A substring match for `q` yields a substring match for every list `p`
that is a prefix of `q`. -/
lemma hasSub_mono {p q : List Char} (hpq : p <+: q) :
    ∀ {s : List Char}, hasSub q s = true → hasSub p s = true := by
  intro s
  induction s with
  | nil =>
    simp only [hasSub]
    rw [ List.isPrefixOf_iff_prefix, List.isPrefixOf_iff_prefix]
    exact fun h => hpq.trans h
  | cons c rest ih =>
    simp only [hasSub, Bool.or_eq_true]
    rintro (h | h)
    · left
      rw [ List.isPrefixOf_iff_prefix] at h ⊢
      exact hpq.trans h
    · right
      exact ih h

set_option maxRecDepth 8192

/-- C1: for every input string, `estimate_time_complexity` is decided by the
loop count (substring occurrences of "for" plus "while", matches inside
identifiers included), the sorting flag ("sort(" or "sorted(" present) and
the recursion flag (more than one "def "), with the first-matching decision
order O(n log n), O(n²), O(n), O(n), O(1) stated in the specification. -/
theorem c1_time_complexity_decision (s : String) :
    estimate_time_complexity s = spec_time_complexity s := by
  simp only [estimate_time_complexity, spec_time_complexity]
  cases h1 : strContains s "sort(" <;> cases h2 : strContains s "sorted(" <;>
    simp only [h1, h2, Bool.false_or, Bool.or_false, Bool.true_or, Bool.or_true,
      Bool.false_and, Bool.true_and, Bool.not_eq_true', beq_iff_eq,
      beq_eq_false_iff_ne, ne_eq, ge_iff_le, gt_iff_lt, Nat.lt_iff_add_one_le,
      false_or, true_or, or_false, or_true, false_and, true_and,
      Bool.false_eq_true, Bool.true_eq_false] <;>
    split_ifs <;> first | rfl | (exfalso; omega)

/-- C2: `detect_language` returns the first matching rule of the ordered
table Python, C / C++, Java, JavaScript, else Unknown; in particular every
input containing both "def " and "function" is labelled Python, never
JavaScript. -/
theorem c2_language_priority (s : String) :
    detect_language s = spec_detect_language s ∧
      (strContains s "def " = true → strContains s "function" = true →
        detect_language s = "Python") := by
  constructor
  · simp only [detect_language, spec_detect_language]
    by_cases h1 : strContains s "def " = true
    · simp [List.find?, h1]
    · by_cases h2 : strContains s "#include" = true
      · simp [List.find?, h1, h2]
      · by_cases h3 : strContains s "public static void main" = true
        · simp [List.find?, h1, h2, h3]
        · by_cases h4 : strContains s "function" = true
          · simp [List.find?, h1, h2, h3, h4]
          · simp [List.find?, h1, h2, h3, h4]
  · intro hd _
    simp [detect_language, hd]

/-- C2 witness: the concrete input "def function" contains both trigger
substrings and is labelled Python. -/
theorem c2_language_priority_witness :
    strContains "def function" "def " = true ∧
      strContains "def function" "function" = true ∧
      detect_language "def function" = "Python" :=
  ⟨rfl, rfl, (c2_language_priority "def function").2 rfl rfl⟩

/-- C3 counterexample: on the bubble-sort snippet the time-complexity
estimator returns "O(n log n)", not the claimed "O(n²)" — the identifier
`bubble_sort(` contains the substring `sort(`, so the sorting rule fires
first. -/
theorem c3_bubble_counterexample :
    estimate_time_complexity bubbleSrc = "O(n log n)" ∧
      ("O(n log n)" == "O(n²)") = false :=
  ⟨rfl, rfl⟩

/-- C3 amended: on the bubble-sort snippet the pipeline reports language
"Python", time complexity "O(n log n)" (the sorting flag is set by `sort(`
occurring inside `bubble_sort(`, and the loop count 2 is nonzero), and
space complexity "O(1)" (no keyword of the space-complexity set matches). -/
theorem c3_bubble_amended :
    detect_language bubbleSrc = "Python" ∧
      estimate_time_complexity bubbleSrc = "O(n log n)" ∧
      estimate_space_complexity bubbleSrc = "O(1)" :=
  ⟨rfl, rfl, rfl⟩

/-- C4: `estimate_execution_time` maps the complexity label to an operation
count (O(1) to 1, O(n) to 100000, O(n log n) to 100000 times 17, O(n²) to
100000 squared, default 100000) and the language to a throughput (Python
5000000, Java 15000000, C / C++ 30000000, default 5000000 ops per ms), and
returns the quotient formatted to exactly two decimal places with the fixed
suffix; in particular O(n²) under C / C++ gives "333.33 ms (n = 10⁵)". -/
theorem c4_execution_time_table (tc language : String) :
    estimate_execution_time tc language = spec_execution_time tc language ∧
      estimate_execution_time "O(n²)" "C / C++" = "333.33 ms (n = 10⁵)" := by
  constructor
  · simp only [estimate_execution_time, spec_execution_time, spec_ops,
      spec_ops_per_ms, beq_iff_eq]
  · rfl

/-- C5: `platform_runtimes` carries the identical string, equal to
`estimate_execution_time`, under all three platform keys for every input;
the differentiated per-platform branches in the source lie after an
unconditional return, never execute, and are absent from the embedded
behaviour. -/
theorem c5_platform_runtimes_identical (tc language : String) :
    platform_runtimes tc language =
      { leetcode := estimate_execution_time tc language
        codeforces := estimate_execution_time tc language
        hackerrank := estimate_execution_time tc language } := rfl

/-- C6 counterexample: `speed_class` on "O(1)" returns "Very Fast ⚡" with a
trailing emoji, not the bare label "Very Fast" the claim states. -/
theorem c6_speed_class_counterexample :
    speed_class "O(1)" = "Very Fast ⚡" ∧ ("Very Fast ⚡" == "Very Fast") = false :=
  ⟨rfl, rfl⟩

/-- C6 amended: `speed_class` implements the fixed four-way label table with
the emoji-decorated strings of the source ("Very Fast ⚡" for "O(1)" or
"O(log n)", "Fast" for "O(n)", "Risky ⚠️" for "O(n log n)", else "Slow 🐢"),
the "O(log n)" branch included even though the time estimator only ever
produces the four labels O(n log n), O(n²), O(n), O(1). -/
theorem c6_speed_class_amended (tc : String) :
    speed_class tc = spec_speed_class tc ∧
      (∀ s : String,
        estimate_time_complexity s ∈ ["O(n log n)", "O(n²)", "O(n)", "O(1)"]) := by
  constructor
  · simp only [speed_class, spec_speed_class, Bool.or_eq_true, beq_iff_eq]
  · intro s
    simp only [estimate_time_complexity]
    split_ifs <;> simp

/-- C7: `is_code` is true iff at least one of the seven fixed literal
substrings occurs in the input, a single match sufficing; in particular the
empty string and "x = 1" are not code and "def f(): pass" is. -/
theorem c7_is_code_symbols (s : String) :
    is_code s = spec_is_code s ∧ is_code "" = false ∧
      is_code "x = 1" = false ∧ is_code "def f(): pass" = true := by
  refine ⟨?_, rfl, rfl, rfl⟩
  simp only [is_code, spec_is_code, List.any_cons, List.any_nil, Bool.or_false,
    Bool.or_assoc]

/-- C8: `estimate_space_complexity` returns "O(n)" iff the lowercased input
contains one of the five container keywords, else "O(1)"; the check is
case-insensitive, so "DICT" gives "O(n)", "data = []" gives "O(n)" and
"x = 1" gives "O(1)". -/
theorem c8_space_complexity_rule (s : String) :
    estimate_space_complexity s = spec_space_complexity s ∧
      estimate_space_complexity "DICT" = "O(n)" ∧
      estimate_space_complexity "data = []" = "O(n)" ∧
      estimate_space_complexity "x = 1" = "O(1)" := by
  refine ⟨?_, rfl, rfl, rfl⟩
  simp only [estimate_space_complexity, spec_space_complexity, List.any_cons,
    List.any_nil, Bool.or_false, Bool.or_eq_true]

/-- C9: every input that is not classified as code yields the fixed
not-code report template — type "Text / Problem Statement", complexity
fields "Paste code to estimate", every other field "N/A" — with no
estimator output in any field. -/
theorem c9_not_code_template (s : String) (h : is_code s = false) :
    analyze s = notCodeReport := by
  simp [analyze, h, notCodeReport]

/-- C9 witness: the sample problem statement is not code and yields the
fixed template. -/
theorem c9_not_code_template_witness :
    is_code "Given an array, return the maximum subarray sum." = false ∧
      analyze "Given an array, return the maximum subarray sum." = notCodeReport :=
  ⟨rfl, c9_not_code_template _ rfl⟩

/-- C10: whenever `detect_language` answers Python, C / C++ or Java, the
trigger substring is or contains an `is_code` symbol, so `is_code` is true;
the implication fails for JavaScript, witnessed by the input "function",
which is labelled JavaScript yet is not classified as code. -/
theorem c10_language_implies_code (s : String)
    (h : detect_language s = "Python" ∨ detect_language s = "C / C++" ∨
      detect_language s = "Java") :
    is_code s = true ∧ detect_language "function" = "JavaScript" ∧
      is_code "function" = false := by
  refine ⟨?_, rfl, rfl⟩
  by_cases h1 : strContains s "def " = true
  · simp [is_code, List.any_cons, h1]
  · by_cases h2 : strContains s "#include" = true
    · simp [is_code, List.any_cons, h2]
    · by_cases h3 : strContains s "public static void main" = true
      · have hp : "public static".data <+: "public static void main".data := by
          rw [show "public static void main".data
              = "public static".data ++ " void main".data from rfl]
          exact List.prefix_append _ _
        have h4 : strContains s "public static" = true := hasSub_mono hp h3
        simp [is_code, List.any_cons, h4]
      · exfalso
        rcases h with h | h | h <;>
          simp only [detect_language, h1, h2, h3] at h <;>
          split_ifs at h <;> simp_all

/-- C10 witness: the concrete input "def f" is labelled Python and is
classified as code. -/
theorem c10_language_implies_code_witness :
    detect_language "def f" = "Python" ∧ is_code "def f" = true :=
  ⟨rfl, (c10_language_implies_code "def f" (Or.inl rfl)).1⟩
